import Mathlib

/-!
# Verification of the torch-points3d U-Net builder (`src/models/base_model.py`)

A shallow embedding, in Lean 4, of the configuration-flattening helpers, the
recursive `UnetBasedModel` builder, `UnetSkipConnectionBlock.forward`, and the
`FPModule` / `GlobalBaseModule` forward passes of `src/models/base_model.py`,
together with theorems settling the specification claims about them.

Conventions of the embedding:
* Python / omegaconf values that flow through configurations are the inductive
  `PyVal`; an omegaconf `ListConfig` is `PyVal.listC`, a plain Python list is
  `PyVal.plainList`, and resolved module classes stored into argument
  dictionaries are `PyVal.pycls` (with `none` standing for Python `None`,
  exactly what `getattr(modules_lib, name, None)` produces for unknown names).
* Python dicts are association lists (`Args`) with insertion-order semantics:
  `dictInsert` updates in place when the key is present and appends otherwise,
  as CPython dicts do.
* Fallible Python code is `Except PyErr`; the `PyErr` constructors name the
  Python exception that the corresponding operation raises.
* Tensors (only needed for the forward passes) are `List (List ℚ)` — a list of
  point rows — and batch-index vectors are `List Nat`.  The external
  torch / torch_geometric numeric kernels (`MLP` stacks, `knn_interpolate`)
  are abstract function parameters, since they are not code of this
  repository; the pooling reductions of `torch_geometric` are given concrete
  executable models.
-/

namespace TP3D

/-- The Python exceptions that the embedded code can raise. -/
inductive PyErr where
  /-- `IndexError`: sequence index out of range. -/
  | indexError
  /-- `AttributeError name`: attribute / config field `name` is missing
  (also raised by `getattr` without a default). -/
  | attributeError (name : String)
  /-- `KeyError name`: dictionary key `name` is missing. -/
  | keyError (name : String)
  /-- `TypeError` raised by calling `None` (the result of a failed registry
  lookup that defaulted to `None`). -/
  | typeErrorNoneNotCallable
  /-- `TypeError` raised by `nn.Module.add_module` when handed a value that is
  neither a `Module` nor `None` (for example a plain Python list). -/
  | typeErrorNotAModule
  /-- Any other `TypeError` (`len()` of a non-sequence, calling a
  non-callable, unpacking `None`, `getattr` with a non-string name...). -/
  | typeError
  /-- A failed `assert` statement. -/
  | assertionError
  /-- `ValueError`: tuple unpacking with the wrong arity. -/
  | valueError
  /-- `RuntimeError` raised by the tensor engine on shape mismatch
  (for example `torch.cat` over rows of different counts). -/
  | shapeError
deriving Repr, DecidableEq

/-- Values stored in configurations and argument dictionaries. -/
inductive PyVal where
  /-- A Python `int`. -/
  | pyint (n : Int)
  /-- A Python `float`, modelled exactly as a rational. -/
  | pyrat (q : ℚ)
  /-- A Python `str`. -/
  | pystr (s : String)
  /-- A Python `bool`. -/
  | pybool (b : Bool)
  /-- An omegaconf `ListConfig`. -/
  | listC (l : List PyVal)
  /-- A plain Python `list` (the result of `list(v)` on a `ListConfig`). -/
  | plainList (l : List PyVal)
  /-- A module class resolved from the registry: `pycls (some s)` is the class
  registered under name `s`, `pycls none` is Python `None` (the default that
  `getattr(modules_lib, name, None)` returns for an unknown name). -/
  | pycls (c : Option String)
  /-- Python `None`. -/
  | pynone

/-- An ordered Python dictionary (or an omegaconf `DictConfig` section) with
`String` keys, as an insertion-ordered association list. -/
abbrev Args := List (String × PyVal)

/-- CPython dict assignment `d[k] = v`: if `k` is present its value is updated
in place (keeping its position), otherwise the pair is appended at the end. -/
def dictInsert : Args → String → PyVal → Args
  | [], k, v => [(k, v)]
  | (k', v') :: rest, k, v =>
      if k' = k then (k', v) :: rest else (k', v') :: dictInsert rest k v

/-- Dictionary lookup `d[k]` / `getattr(d, k)` as an `Option`. -/
def lookupArgs : Args → String → Option PyVal
  | [], _ => none
  | (k', v) :: rest, k => if k' = k then some v else lookupArgs rest k

/-- `d.pop(k)`: drop the (unique) entry with key `k`. -/
def removeKey : Args → String → Args
  | [], _ => []
  | (k', v) :: rest, k => if k' = k then rest else (k', v) :: removeKey rest k

/-- `getattr(sect, n)` on a config section: `AttributeError` when missing. -/
def getField (sect : Args) (n : String) : Except PyErr PyVal :=
  match lookupArgs sect n with
  | some v => .ok v
  | none => .error (.attributeError n)

/-- Python `len(v)`: defined for sequences, `TypeError` otherwise. -/
def pyLen : PyVal → Except PyErr Nat
  | .listC l => .ok l.length
  | .plainList l => .ok l.length
  | _ => .error .typeError

/-- Python sequence indexing `l[i]` with negative-index wrap-around and
`IndexError` when out of range. -/
def pyIndex (l : List PyVal) (i : Int) : Except PyErr PyVal :=
  if i < 0 then
    if i + (l.length : Int) < 0 then .error .indexError
    else
      match l.get? (i + (l.length : Int)).toNat with
      | some v => .ok v
      | none => .error .indexError
  else
    match l.get? i.toNat with
    | some v => .ok v
    | none => .error .indexError

/-- `isinstance(v, ListConfig)`. -/
def isListC : PyVal → Bool
  | .listC _ => true
  | _ => false

/-- `list(v)` on a `ListConfig` (a shallow conversion: the elements are kept
as they are); any other value is left untouched. -/
def materializeTop : PyVal → PyVal
  | .listC l => .plainList l
  | v => v

/-- `SPECIAL_NAMES = ['radius']` (line 12 of `base_model.py`). -/
def SPECIAL_NAMES : List String := ["radius"]

/-- One iteration of the loop of `UnetBasedModel.fetch_arguments_from_list`
(lines 20–32): process the configuration entry `(name, v)` at level `index`,
updating the accumulated `args` dictionary.  A non-empty `ListConfig` field is
singularized (trailing `"s"` stripped unless the name is in `SPECIAL_NAMES`)
and indexed at `index`; every other field — including an *empty* `ListConfig`,
which fails the `len(...) > 0` guard — is passed through whole (a `ListConfig`
being materialized into a plain list).  Python evaluates `name[-1]`, which
raises `IndexError` on an empty field name. -/
def processField (args : Args) (name : String) (v : PyVal) (index : Int) :
    Except PyErr Args :=
  match v with
  | .listC l =>
      if 0 < l.length then
        match name.data.getLast? with
        | none => .error .indexError
        | some c => do
            let nm := if c = 's' ∧ name ∉ SPECIAL_NAMES
                      then String.mk name.data.dropLast else name
            let vi ← pyIndex l index
            pure (dictInsert args nm (materializeTop vi))
      else pure (dictInsert args name (materializeTop v))
  | _ => pure (dictInsert args name v)

/-- `UnetBasedModel.fetch_arguments_from_list(opt, index)` (lines 18–34):
fold `processField` over the section's entries, then set
`args['index'] = index`. -/
def fetch_arguments_from_list (opt : Args) (index : Int) : Except PyErr Args := do
  let args ← opt.foldlM (fun args p => processField args p.1 p.2 index) ([] : Args)
  pure (dictInsert args "index" (.pyint index))

/-- A nested U-Net configuration: the `down_conv` and `up_conv` sections and
the optional `innermost` section (`contains_global = hasattr(opt, "innermost")`
is `opt.innermost.isSome`). -/
structure UnetOpt where
  down_conv : Args
  up_conv : Args
  innermost : Option Args

/-- `getattr(modules_lib, opt.xxx.module_name, None)` (lines 62–63): read the
section's `module_name` (an `AttributeError` if absent, a `TypeError` if it is
not a string) and look it up in the registry, *defaulting to `None`* when the
name is unknown — the lookup itself never fails for an unknown name. -/
def resolveCls (modules_lib : List String) (sect : Args) :
    Except PyErr (Option String) := do
  let mn ← getField sect "module_name"
  match mn with
  | .pystr s => pure (if s ∈ modules_lib then some s else none)
  | _ => .error .typeError

/-- `UnetBasedModel.fetch_arguments_up_and_down(opt, index, count_convs)`
(lines 36–44): flatten `down_conv` at the forward index and `up_conv` at the
mirror index `count_convs - index`, and attach the resolved convolution
classes.  Returns `(args_up, args_down)` as the Python method does. -/
def fetch_arguments_up_and_down (opt : UnetOpt) (down_conv_cls up_conv_cls : Option String)
    (index count_convs : Int) : Except PyErr (Args × Args) := do
  let args_down ← fetch_arguments_from_list opt.down_conv index
  let args_down := dictInsert args_down "down_conv_cls" (.pycls down_conv_cls)
  let args_up ← fetch_arguments_from_list opt.up_conv (count_convs - index)
  let args_up := dictInsert args_up "up_conv_cls" (.pycls up_conv_cls)
  pure (args_up, args_down)

/-- An instantiated sub-module: the registry class name it was built from and
the keyword arguments it received. -/
structure ModuleInst where
  clsName : String
  args : Args

/-- The object a finished `UnetSkipConnectionBlock.__init__` leaves behind:
the two state flags and the owned sub-modules (`inner` and `submodule` are
populated according to the state, `up` always is). -/
inductive Block where
  | mk (outermost innermost : Bool) (inner : Option ModuleInst)
       (down : Option ModuleInst) (up : ModuleInst) (submodule : Option Block)

/-- The value passed as `submodule=` to `UnetSkipConnectionBlock`: either the
plain-list placeholder `[]` from line 74 of `base_model.py`, or a previously
built block. -/
inductive SubArg where
  /-- The empty Python list used as the initial placeholder (`unet_block = []`). -/
  | placeholderList
  /-- An actual `UnetSkipConnectionBlock`. -/
  | blk (b : Block)

/-- `UnetSkipConnectionBlock.get_from_kwargs(kwargs, name)` (lines 99–102):
read `kwargs[name]` (`KeyError` when missing) and pop it. -/
def get_from_kwargs (kwargs : Args) (name : String) : Except PyErr (PyVal × Args) :=
  match lookupArgs kwargs name with
  | some v => .ok (v, removeKey kwargs name)
  | none => .error (.keyError name)

/-- Calling a class value popped from an argument dictionary, `cls(**args)`:
`pycls (some s)` constructs a module; `pycls none` — the `None` left by a
failed registry lookup — raises `TypeError` (`None` is not callable), as does
calling any non-class value. -/
def instantiateCls (cls : PyVal) (args : Args) : Except PyErr ModuleInst :=
  match cls with
  | .pycls (some s) => .ok ⟨s, args⟩
  | .pycls none => .error .typeErrorNoneNotCallable
  | _ => .error .typeError

/-- `nn.Sequential(*[sub])` applied to the `submodule` argument (line 139/143):
`add_module` accepts an `nn.Module` (a built block) or `None`, and raises
`TypeError` on anything else — in particular on the plain-list placeholder
`[]`. -/
def seqWrapSubmodule : Option SubArg → Except PyErr (Option Block)
  | some .placeholderList => .error .typeErrorNotAModule
  | some (.blk b) => .ok (some b)
  | none => .ok none

/-- `UnetSkipConnectionBlock.__init__` (lines 104–143).  The trailing
`**kwargs` of the Python signature (which swallows `input_nc`, `norm_layer`
and `output_nc`) is accepted and ignored, exactly as in the source. -/
def UnetSkipConnectionBlock.init (args_up args_down args_innermost : Option Args)
    (modules_lib : List String) (submodule : Option SubArg)
    (outermost innermost : Bool) (kwargs : Args) : Except PyErr Block :=
  let _ := kwargs
  if innermost then do
    if outermost then .error .assertionError else pure ()
    let ainn ← match args_innermost with
      | some a => pure a
      | none => .error .typeError
    let (mn, innRest) ← get_from_kwargs ainn "module_name"
    let s ← match mn with
      | .pystr s => pure s
      | _ => .error .typeError
    if s ∈ modules_lib then pure () else .error (.attributeError s)
    let innerInst : ModuleInst := ⟨s, innRest⟩
    let au ← match args_up with
      | some a => pure a
      | none => .error .typeError
    let (upcls, upRest) ← get_from_kwargs au "up_conv_cls"
    let upInst ← instantiateCls upcls upRest
    pure (Block.mk outermost innermost (some innerInst) none upInst none)
  else do
    let ad ← match args_down with
      | some a => pure a
      | none => .error .typeError
    let (downcls, downRest) ← get_from_kwargs ad "down_conv_cls"
    let au ← match args_up with
      | some a => pure a
      | none => .error .typeError
    let (upcls, upRest) ← get_from_kwargs au "up_conv_cls"
    let downInst ← instantiateCls downcls downRest
    let upInst ← instantiateCls upcls upRest
    let sub ← seqWrapSubmodule submodule
    pure (Block.mk outermost innermost none (some downInst) upInst sub)

/-- The `**kwargs` the builder passes to the innermost and intermediate
blocks: `input_nc=None, norm_layer=None`. -/
def innerKwargs : Args := [("input_nc", .pynone), ("norm_layer", .pynone)]

/-- The `**kwargs` the builder passes to the outermost block:
`output_nc=num_classes, input_nc=None, norm_layer=None` (line 86). -/
def outermostKwargs (num_classes : Int) : Args :=
  [("output_nc", .pyint num_classes), ("input_nc", .pynone), ("norm_layer", .pynone)]

/-- The loop indices of line 77, `range(num_convs - 1, 0, -1)`:
`num_convs - 1` down to `1`. -/
def downIndices (num_convs : Nat) : List Nat :=
  ((List.range (num_convs - 1)).map (· + 1)).reverse

/-- The loop of lines 77–80: wrap the current block in an intermediate
`UnetSkipConnectionBlock` for each index, from `num_convs - 1` down to `1`. -/
def buildMiddle (opt : UnetOpt) (down_conv_cls up_conv_cls : Option String)
    (modules_lib : List String) (num_convs : Nat) :
    List Nat → SubArg → Except PyErr SubArg
  | [], b => .ok b
  | i :: rest, b => do
      let (args_up, args_down) ←
        fetch_arguments_up_and_down opt down_conv_cls up_conv_cls (i : Int) (num_convs : Int)
      let blk ← UnetSkipConnectionBlock.init (some args_up) (some args_down) none
        modules_lib (some b) false false innerKwargs
      buildMiddle opt down_conv_cls up_conv_cls modules_lib num_convs rest (.blk blk)

/-- The object a finished `UnetBasedModel.__init__` leaves behind. -/
structure UnetModel where
  down_conv_cls : Option String
  up_conv_cls : Option String
  model : Block

/-- `UnetBasedModel.__init__(opt, num_classes, modules_lib)` (lines 46–89):
`num_convs = len(opt.down_conv.down_conv_nn)`; resolve the two convolution
classes with a `None` default; if an `innermost` section is present, assert
`len(down_conv.down_conv_nn) + 1 == len(up_conv.up_conv_nn)` and build the
innermost block, otherwise start from the `[]` placeholder; wrap intermediate
blocks for indices `num_convs - 1 .. 1`; finally build the outermost block at
index `0` (or `num_convs - 1` when `num_convs <= 1`), passing
`output_nc=num_classes`. -/
def UnetBasedModel.init (opt : UnetOpt) (num_classes : Int)
    (modules_lib : List String) : Except PyErr UnetModel := do
  let dcn ← getField opt.down_conv "down_conv_nn"
  let num_convs ← pyLen dcn
  let down_conv_cls ← resolveCls modules_lib opt.down_conv
  let up_conv_cls ← resolveCls modules_lib opt.up_conv
  let unet_block ← match opt.innermost with
    | some inn => do
        let ucn ← getField opt.up_conv "up_conv_nn"
        let ulen ← pyLen ucn
        if num_convs + 1 = ulen then pure () else .error .assertionError
        let args_up ← fetch_arguments_from_list opt.up_conv 0
        let args_up := dictInsert args_up "up_conv_cls" (.pycls up_conv_cls)
        let b ← UnetSkipConnectionBlock.init (some args_up) none (some inn)
          modules_lib none false true innerKwargs
        pure (SubArg.blk b)
    | none => pure SubArg.placeholderList
  let unet_block ←
    if 1 < num_convs then
      buildMiddle opt down_conv_cls up_conv_cls modules_lib num_convs
        (downIndices num_convs) unet_block
    else pure unet_block
  let index : Int := if 1 < num_convs then 0 else (num_convs : Int) - 1
  let (args_up, args_down) ←
    fetch_arguments_up_and_down opt down_conv_cls up_conv_cls index (num_convs : Int)
  let model ← UnetSkipConnectionBlock.init (some args_up) (some args_down) none
    modules_lib (some unet_block) true false (outermostKwargs num_classes)
  pure ⟨down_conv_cls, up_conv_cls, model⟩

/-! ## Forward passes

The data flowing through `forward` is a Python tuple of tensors, embedded as a
`List TVal`.  A 2-D feature/position tensor is a list of point rows over ℚ; a
batch-index tensor is a `List Nat`. -/

/-- A 2-D tensor: one row per point. -/
abbrev Mat := List (List ℚ)

/-- An element of a forward-pass tuple. -/
inductive TVal where
  /-- A 2-D tensor. -/
  | mat (m : Mat)
  /-- A 1-D batch-index tensor. -/
  | vec (v : List Nat)
  /-- Python `None` (an absent skip tensor). -/
  | null
deriving Repr, DecidableEq

/-- Expect a 2-D tensor (the tensor engine raises on anything else). -/
def asMat : TVal → Except PyErr Mat
  | .mat m => .ok m
  | _ => .error .typeError

/-- Expect a batch-index tensor. -/
def asVec : TVal → Except PyErr (List Nat)
  | .vec v => .ok v
  | _ => .error .typeError

/-- `torch.cat([a, b], dim=1)`: rows are concatenated channel-wise; torch
raises a shape error when the row counts differ. -/
def torchCat1 (a b : Mat) : Except PyErr Mat :=
  if a.length = b.length then .ok (List.zipWith (· ++ ·) a b)
  else .error .shapeError

/-- Every row of `m` has `w` entries (the tensor has channel width `w`). -/
def uniformWidth (m : Mat) (w : Nat) : Prop := ∀ r ∈ m, r.length = w

/-- The (external) torch `MLP(channels)` stack maps any input to a tensor
whose rows all have the width of the final layer, `channels.getLastD 0`. -/
def MLPFinalWidth (channels : List Nat) (f : Mat → Mat) : Prop :=
  ∀ m, uniformWidth (f m) (channels.getLastD 0)

/-- The signature of `torch_geometric.nn.knn_interpolate`, an external kernel:
`ki x pos pos_skip batch batch_skip k` interpolates the coarse features `x`
(living at `pos`) onto the finer positions `pos_skip`. -/
abbrev KnnInterpolate := Mat → Mat → Mat → List Nat → List Nat → Nat → Mat

/-- A `UnetSkipConnectionBlock` as it exists at forward time: each owned
sub-module is the function its `forward` computes (the `nn.Sequential`
wrappers of a single module apply exactly that module).  A non-innermost
block's flags do not influence `forward` (lines 145–154 branch only on
`self.innermost`), so intermediate and outermost blocks share `midB`. -/
inductive RBlock where
  | innerB (inner up : List TVal → Except PyErr (List TVal))
  | midB (down up : List TVal → Except PyErr (List TVal)) (sub : RBlock)

/-- `UnetSkipConnectionBlock.forward(data)` (lines 145–154): in the innermost
state, `data_out = inner(data); data = (*data_out, *data); return up(data)`;
otherwise `data_out = down(data); data_out2 = submodule(data_out);
data = (*data_out2, *data); return up(data)`. -/
def RBlock.forward : RBlock → List TVal → Except PyErr (List TVal)
  | .innerB inner up, data => do
      let data_out ← inner data
      up (data_out ++ data)
  | .midB down up sub, data => do
      let data_out ← down data
      let data_out2 ← sub.forward data_out
      up (data_out2 ++ data)

/-- `FPModule` (lines 164–188): `self.k = up_k`, `self.nn = MLP(up_conv_nn)`.
The MLP itself is an external torch stack; it is carried as the abstract
function `nn`, alongside the channel list it was built from. -/
structure FPModule where
  up_k : Nat
  up_conv_nn : List Nat
  nn : Mat → Mat

/-- `FPModule.forward(data)` (lines 180–188): unpack
`x, pos, batch, x_skip, pos_skip, batch_skip = data`; interpolate with
`knn_interpolate(x, pos, pos_skip, batch, batch_skip, k)`; concatenate
`x_skip` channel-wise when it is not `None`; apply the MLP; return
`(x, pos_skip, batch_skip)`. -/
def FPModule.forward (fp : FPModule) (ki : KnnInterpolate) (data : List TVal) :
    Except PyErr (List TVal) :=
  match data with
  | [x, pos, batch, x_skip, pos_skip, batch_skip] => do
      let xm ← asMat x
      let posm ← asMat pos
      let bv ← asVec batch
      let psm ← asMat pos_skip
      let bsv ← asVec batch_skip
      let xi := ki xm posm psm bv bsv fp.up_k
      let x2 ← match x_skip with
        | .null => pure xi
        | v => do
            let sm ← asMat v
            torchCat1 xi sm
      pure [TVal.mat (fp.nn x2), pos_skip, batch_skip]
  | _ => .error .valueError

/-- `int(batch.max()) + 1`, the number of clouds a `torch_geometric` global
pool produces (`0` for an empty batch vector). -/
def numClouds (batch : List Nat) : Nat :=
  match batch with
  | [] => 0
  | _ => batch.foldl Nat.max 0 + 1

/-- The rows of `x` whose batch index is `i`. -/
def groupRows (x : Mat) (batch : List Nat) (i : Nat) : Mat :=
  (List.zip batch x).filterMap fun p => if p.1 = i then some p.2 else none

/-- Column-wise maximum of a group of rows (`scatter` with reduce `max`). -/
def colMax : Mat → List ℚ
  | [] => []
  | r :: rs => rs.foldl (fun acc row => List.zipWith max acc row) r

/-- Column-wise sum of a group of rows. -/
def colSum : Mat → List ℚ
  | [] => []
  | r :: rs => rs.foldl (fun acc row => List.zipWith (· + ·) acc row) r

/-- `torch_geometric.nn.global_max_pool(x, batch)` (external): one row per
cloud `0 .. batch.max()`, each the column-wise max of that cloud's rows. -/
def global_max_pool (x : Mat) (batch : List Nat) : Mat :=
  (List.range (numClouds batch)).map fun i => colMax (groupRows x batch i)

/-- `torch_geometric.nn.global_mean_pool(x, batch)` (external): one row per
cloud, each the column-wise mean of that cloud's rows. -/
def global_mean_pool (x : Mat) (batch : List Nat) : Mat :=
  (List.range (numClouds batch)).map fun i =>
    let rows := groupRows x batch i
    (colSum rows).map (· / (rows.length : ℚ))

/-- `GlobalBaseModule` (lines 215–228): `self.nn = MLP(nn)` (abstract,
external) and the aggregation tag `aggr` from which `__init__` selects the
pool. -/
structure GlobalBaseModule where
  nn : Mat → Mat
  aggr : String

/-- `self.pool = global_max_pool if aggr == "max" else global_mean_pool`
(line 219). -/
def GlobalBaseModule.pool (g : GlobalBaseModule) : Mat → List Nat → Mat :=
  if g.aggr = "max" then global_max_pool else global_mean_pool

/-- `pos.new_zeros((r, c))`. -/
def zerosMat (r c : Nat) : Mat := List.replicate r (List.replicate c 0)

/-- `GlobalBaseModule.forward(data)` (lines 221–228): unpack
`x, pos, batch = data`; `x = self.nn(torch.cat([x, pos], dim=1))`;
`x = self.pool(x, batch)`; `pos = pos.new_zeros((x.size(0), 3))`;
`batch = torch.arange(x.size(0))`; return `(x, pos, batch)`. -/
def GlobalBaseModule.forward (g : GlobalBaseModule) (data : List TVal) :
    Except PyErr (List TVal) :=
  match data with
  | [x, pos, batch] => do
      let xm ← asMat x
      let posm ← asMat pos
      let bv ← asVec batch
      let catted ← torchCat1 xm posm
      let x1 := g.nn catted
      let pooled := g.pool x1 bv
      pure [TVal.mat pooled, TVal.mat (zerosMat pooled.length 3),
            TVal.vec (List.range pooled.length)]
  | _ => .error .valueError

/-! ## Concrete instances used by the closed theorems -/

/-- Did the construction succeed? -/
def isOkE {α : Type} : Except PyErr α → Bool
  | .ok _ => true
  | .error _ => false

/-- A registry knowing the three module classes of `base_model.py`. -/
def libStd : List String := ["PointConv", "FPModule", "GlobalBaseModule"]

/-- A well-formed one-level configuration *without* an `innermost` section
(the scenario of the spec's first testable property). -/
def cfgNoGlobal : UnetOpt where
  down_conv := [("module_name", .pystr "PointConv"),
                ("down_conv_nn", .listC [.listC [.pyint 3, .pyint 16]]),
                ("ratios", .listC [.pyrat (1/2)]),
                ("radius", .listC [.pyrat (1/5)])]
  up_conv := [("module_name", .pystr "FPModule"),
              ("up_conv_nn", .listC [.listC [.pyint 16, .pyint 3],
                                     .listC [.pyint 3, .pyint 3]]),
              ("up_k", .listC [.pyint 1, .pyint 1])]
  innermost := none

/-- A configuration with an `innermost` section whose `down_conv` module name
`"Nope"` is not registered; everything else is well formed. -/
def cfgBadDown : UnetOpt where
  down_conv := [("module_name", .pystr "Nope"),
                ("down_conv_nn", .listC [.listC [.pyint 3, .pyint 16]]),
                ("ratios", .listC [.pyrat (1/2)]),
                ("radius", .listC [.pyrat (1/5)])]
  up_conv := [("module_name", .pystr "FPModule"),
              ("up_conv_nn", .listC [.listC [.pyint 16, .pyint 3],
                                     .listC [.pyint 3, .pyint 3]]),
              ("up_k", .listC [.pyint 1, .pyint 1])]
  innermost := some [("module_name", .pystr "GlobalBaseModule"),
                     ("nn", .listC [.pyint 19, .pyint 32])]

/-- A configuration with an `innermost` section whose `up_conv` module name
`"NopeUp"` is not registered; everything else is well formed. -/
def cfgBadUp : UnetOpt where
  down_conv := [("module_name", .pystr "PointConv"),
                ("down_conv_nn", .listC [.listC [.pyint 3, .pyint 16]]),
                ("ratios", .listC [.pyrat (1/2)]),
                ("radius", .listC [.pyrat (1/5)])]
  up_conv := [("module_name", .pystr "NopeUp"),
              ("up_conv_nn", .listC [.listC [.pyint 16, .pyint 3],
                                     .listC [.pyint 3, .pyint 3]]),
              ("up_k", .listC [.pyint 1, .pyint 1])]
  innermost := some [("module_name", .pystr "GlobalBaseModule"),
                     ("nn", .listC [.pyint 19, .pyint 32])]

/-- A configuration with an `innermost` section and mismatched level counts:
one `down_conv` level but also only one `up_conv` level. -/
def cfgMismatch : UnetOpt where
  down_conv := [("module_name", .pystr "PointConv"),
                ("down_conv_nn", .listC [.listC [.pyint 3, .pyint 16]])]
  up_conv := [("module_name", .pystr "FPModule"),
              ("up_conv_nn", .listC [.listC [.pyint 16, .pyint 3]])]
  innermost := some [("module_name", .pystr "GlobalBaseModule"),
                     ("nn", .listC [.pyint 19, .pyint 32])]

/-- A sample inner module function: ignores its input and produces a
3-tuple. -/
def innerF : List TVal → Except PyErr (List TVal) :=
  fun _ => .ok [.mat [[5]], .mat [[6]], .vec [0]]

/-- The identity module function. -/
def idF : List TVal → Except PyErr (List TVal) := fun l => .ok l

/-- A sample down module function producing a 3-tuple. -/
def downF : List TVal → Except PyErr (List TVal) :=
  fun _ => .ok [.mat [[7]], .mat [[8]], .vec [1]]

/-- A nested block whose `forward` is the identity (its inner module returns
the empty tuple, its up module is the identity). -/
def subF : RBlock := .innerB (fun _ => .ok []) idF

/-- A sample 3-tuple input. -/
def dataF : List TVal := [.mat [[1]], .mat [[2]], .vec [3]]

/-- A sample `FPModule`: `up_k = 1`, `up_conv_nn = [6, 4]`, with an MLP stand-in
whose rows all have the final width 4. -/
def fpW : FPModule where
  up_k := 1
  up_conv_nn := [6, 4]
  nn := fun m => m.map fun _ => [0, 0, 0, 0]

/-- A sample interpolation kernel: one feature channel per skip position. -/
def kiW : KnnInterpolate := fun _ _ ps _ _ _ => ps.map fun _ => [(1 : ℚ)]

/-- A sample `GlobalBaseModule` with identity MLP and max aggregation. -/
def g0 : GlobalBaseModule where
  nn := fun m => m
  aggr := "max"

/-- Sample features for `g0`. -/
def x0g : Mat := [[1], [2]]

/-- Sample positions for `g0`. -/
def pos0g : Mat := [[0, 0, 0], [1, 1, 1]]

/-- Sample batch vector for `g0`: two clouds of one point each. -/
def batch0g : List Nat := [0, 1]

/-- The pooled features `g0` produces on the samples. -/
def pooled0g : Mat := [[1, 0, 0, 0], [2, 1, 1, 1]]

/-- The up-path arguments `fetch_arguments_up_and_down` produces on
`cfgNoGlobal` at level 0 of 1 (mirror index 1). -/
def fetch_up_w : Args :=
  [("module_name", .pystr "FPModule"),
   ("up_conv_nn", .plainList [.pyint 3, .pyint 3]),
   ("up_k", .pyint 1),
   ("index", .pyint 1),
   ("up_conv_cls", .pycls (some "FPModule"))]

/-- The down-path arguments `fetch_arguments_up_and_down` produces on
`cfgNoGlobal` at level 0 of 1. -/
def fetch_down_w : Args :=
  [("module_name", .pystr "PointConv"),
   ("down_conv_nn", .plainList [.pyint 3, .pyint 16]),
   ("ratio", .pyrat (1/2)),
   ("radius", .pyrat (1/5)),
   ("index", .pyint 0),
   ("down_conv_cls", .pycls (some "PointConv"))]

/-! ## Infrastructure lemmas -/

theorem exbind_ok {α β : Type} (a : α) (f : α → Except PyErr β) :
    (Except.ok a >>= f) = f a := rfl

theorem exbind_error {α β : Type} (e : PyErr) (f : α → Except PyErr β) :
    ((Except.error e : Except PyErr α) >>= f) = Except.error e := rfl

theorem expure {α : Type} (a : α) : (pure a : Except PyErr α) = Except.ok a := rfl

theorem exmap_ok {α β : Type} (f : α → β) (a : α) :
    (f <$> (Except.ok a : Except PyErr α)) = Except.ok (f a) := rfl

theorem exmap_error {α β : Type} (f : α → β) (e : PyErr) :
    (f <$> (Except.error e : Except PyErr α)) = Except.error e := rfl

theorem lookup_dictInsert_self (d : Args) (k : String) (v : PyVal) :
    lookupArgs (dictInsert d k v) k = some v := by
  induction d with
  | nil => simp [dictInsert, lookupArgs]
  | cons p rest ih =>
      obtain ⟨k', v'⟩ := p
      by_cases h : k' = k
      · simp [dictInsert, h, lookupArgs]
      · simp [dictInsert, h, lookupArgs, ih]

theorem lookup_dictInsert_ne (d : Args) (k k' : String) (v : PyVal) (h : k' ≠ k) :
    lookupArgs (dictInsert d k v) k' = lookupArgs d k' := by
  have hk : ¬ (k = k') := fun hh => h hh.symm
  induction d with
  | nil => simp [dictInsert, lookupArgs, hk]
  | cons p rest ih =>
      obtain ⟨k0, v0⟩ := p
      by_cases h0 : k0 = k
      · subst h0
        simp [dictInsert, lookupArgs, hk]
      · by_cases h1 : k0 = k'
        · simp [dictInsert, h0, lookupArgs, h1, h]
        · simp [dictInsert, h0, lookupArgs, h1, ih]

theorem fetch_lookup_index (opt : Args) (i : Int) (a : Args)
    (h : fetch_arguments_from_list opt i = .ok a) :
    lookupArgs a "index" = some (.pyint i) := by
  unfold fetch_arguments_from_list at h
  cases hf : List.foldlM (fun args p => processField args p.1 p.2 i) ([] : Args) opt with
  | error e => rw [hf, exbind_error] at h; cases h
  | ok args =>
      rw [hf, exbind_ok, expure] at h
      cases h
      exact lookup_dictInsert_self args "index" (.pyint i)

theorem pyIndex_error {l : List PyVal} {i : Int} {e : PyErr}
    (h : pyIndex l i = .error e) : e = .indexError := by
  unfold pyIndex at h
  split at h
  · split at h
    · cases h; rfl
    · split at h
      · cases h
      · cases h; rfl
  · split at h
    · cases h
    · cases h; rfl

theorem pyIndex_oob (l : List PyVal) (i : Int) (h0 : 0 < l.length)
    (hle : (l.length : Int) ≤ i) : pyIndex l i = .error .indexError := by
  have hneg : ¬ i < 0 := by omega
  have hget : l.get? i.toNat = none := by
    refine List.get?_eq_none.mpr ?_
    omega
  unfold pyIndex
  rw [if_neg hneg, hget]

theorem processField_error {args : Args} {n : String} {v : PyVal} {i : Int}
    {e : PyErr} (h : processField args n v i = .error e) : e = .indexError := by
  unfold processField at h
  cases v with
  | listC l =>
      simp only at h
      split at h
      · cases hc : n.data.getLast? with
        | none => rw [hc] at h; cases h; rfl
        | some c =>
            rw [hc] at h
            simp only at h
            cases hp : pyIndex l i with
            | error e' =>
                rw [hp, exbind_error] at h
                cases h
                exact pyIndex_error hp
            | ok vi => rw [hp, exbind_ok, expure] at h; cases h
      · cases h
  | pyint n' => cases h
  | pyrat q => cases h
  | pystr s => cases h
  | pybool b => cases h
  | plainList l => cases h
  | pycls c => cases h
  | pynone => cases h

theorem processField_oob (args : Args) (n : String) (l : List PyVal) (i : Int)
    (h0 : 0 < l.length) (hle : (l.length : Int) ≤ i) :
    processField args n (.listC l) i = .error .indexError := by
  unfold processField
  simp only [if_pos h0]
  cases hc : n.data.getLast? with
  | none => rfl
  | some c => simp only [pyIndex_oob l i h0 hle, exbind_error]

theorem foldlM_oob (i : Int) (n : String) (l : List PyVal)
    (h0 : 0 < l.length) (hle : (l.length : Int) ≤ i) :
    ∀ (opt : Args) (args : Args), (n, PyVal.listC l) ∈ opt →
      opt.foldlM (fun args p => processField args p.1 p.2 i) args =
        .error .indexError := by
  intro opt
  induction opt with
  | nil => intro args hmem; cases hmem
  | cons hd rest ih =>
      intro args hmem
      rcases List.mem_cons.mp hmem with heq | hmem'
      · simp only [List.foldlM_cons, ← heq,
          processField_oob args n l i h0 hle, exbind_error]
      · simp only [List.foldlM_cons]
        cases hp : processField args hd.1 hd.2 i with
        | error e =>
            rw [exbind_error, processField_error hp]
        | ok args' =>
            rw [exbind_ok]
            exact ih args' hmem'

theorem fud_cls_lookup (opt : UnetOpt) (dcc ucc : Option String) (i cnt : Int)
    (p : Args × Args)
    (h : fetch_arguments_up_and_down opt dcc ucc i cnt = .ok p) :
    lookupArgs p.2 "down_conv_cls" = some (.pycls dcc) ∧
    lookupArgs p.1 "up_conv_cls" = some (.pycls ucc) := by
  unfold fetch_arguments_up_and_down at h
  cases hd : fetch_arguments_from_list opt.down_conv i with
  | error e => rw [hd, exbind_error] at h; cases h
  | ok ad0 =>
      rw [hd, exbind_ok] at h
      cases hu : fetch_arguments_from_list opt.up_conv (cnt - i) with
      | error e => rw [hu, exbind_error] at h; cases h
      | ok au0 =>
          rw [hu, exbind_ok, expure] at h
          cases h
          exact ⟨lookup_dictInsert_self _ _ _, lookup_dictInsert_self _ _ _⟩

theorem zipWith_append_width (wa wb : Nat) :
    ∀ (a b : Mat), uniformWidth a wa → uniformWidth b wb →
      uniformWidth (List.zipWith (· ++ ·) a b) (wa + wb) := by
  intro a
  induction a with
  | nil => intro b _ _ r hr; simp at hr
  | cons r0 rs ih =>
      intro b ha hb
      cases b with
      | nil => intro r hr; simp at hr
      | cons q0 qs =>
          intro r hr
          rcases List.mem_cons.mp hr with heq | hmem
          · subst heq
            rw [List.length_append,
                ha r0 (List.mem_cons_self _ _), hb q0 (List.mem_cons_self _ _)]
          · exact ih qs (fun s h => ha s (List.mem_cons_of_mem _ h))
              (fun q h => hb q (List.mem_cons_of_mem _ h)) r hmem

theorem uscb_none_down_cls_fails (au ad : Args) (sub : Option SubArg)
    (lib : List String) (kw : Args)
    (hd : lookupArgs ad "down_conv_cls" = some (.pycls none)) :
    isOkE (UnetSkipConnectionBlock.init (some au) (some ad) none lib sub
      true false kw) = false := by
  unfold UnetSkipConnectionBlock.init
  cases hk : lookupArgs au "up_conv_cls" with
  | none =>
      simp [get_from_kwargs, hd, hk, exbind_ok, exbind_error, isOkE, instantiateCls]
  | some upv =>
      simp [get_from_kwargs, hd, hk, exbind_ok, exbind_error, isOkE, instantiateCls]

theorem uscb_none_up_cls_fails (au ad : Args) (sub : Option SubArg)
    (lib : List String) (kw : Args)
    (hu : lookupArgs au "up_conv_cls" = some (.pycls none)) :
    isOkE (UnetSkipConnectionBlock.init (some au) (some ad) none lib sub
      true false kw) = false := by
  unfold UnetSkipConnectionBlock.init
  cases hd : lookupArgs ad "down_conv_cls" with
  | none =>
      simp [get_from_kwargs, hd, hu, exbind_ok, exbind_error, isOkE, instantiateCls]
  | some v =>
      cases hi : instantiateCls v (removeKey ad "down_conv_cls") with
      | error e =>
          simp [get_from_kwargs, hd, hu, hi, exbind_ok, exbind_error, isOkE]
      | ok downInst =>
          simp only [Bool.false_eq_true, if_false, get_from_kwargs, hd, hu,
            expure, exbind_ok]
          rw [hi]
          simp [exbind_ok, instantiateCls, exbind_error, isOkE]

theorem init_never_ok_outermost (opt : UnetOpt) (nc : Int) (lib : List String)
    (hfail : ∀ (dcc ucc : Option String),
      resolveCls lib opt.down_conv = .ok dcc →
      resolveCls lib opt.up_conv = .ok ucc →
      ∀ (au ad : Args) (sub : Option SubArg) (kw : Args),
        lookupArgs ad "down_conv_cls" = some (.pycls dcc) →
        lookupArgs au "up_conv_cls" = some (.pycls ucc) →
        isOkE (UnetSkipConnectionBlock.init (some au) (some ad) none lib sub
          true false kw) = false) :
    isOkE (UnetBasedModel.init opt nc lib) = false := by
  unfold UnetBasedModel.init
  cases h1 : getField opt.down_conv "down_conv_nn" with
  | error e => simp [h1, exbind_error, isOkE]
  | ok dcn =>
      simp only [h1, exbind_ok]
      cases h2 : pyLen dcn with
      | error e => simp [h2, exbind_error, isOkE]
      | ok num_convs =>
          simp only [h2, exbind_ok]
          cases hdc : resolveCls lib opt.down_conv with
          | error e => simp [hdc, exbind_error, isOkE]
          | ok dcc =>
              simp only [hdc, exbind_ok]
              cases huc : resolveCls lib opt.up_conv with
              | error e => simp [huc, exbind_error, isOkE]
              | ok ucc =>
                  simp only [huc, exbind_ok]
                  have tail2 : ∀ (ub : SubArg) (idx : Int), isOkE
                      (fetch_arguments_up_and_down opt dcc ucc idx (num_convs : Int) >>=
                        fun p =>
                          UnetModel.mk dcc ucc <$>
                            UnetSkipConnectionBlock.init (some p.1) (some p.2) none lib
                              (some ub) true false (outermostKwargs nc)) = false := by
                    intro ub idx
                    cases h6 : fetch_arguments_up_and_down opt dcc ucc idx
                        (num_convs : Int) with
                    | error e => simp [h6, exbind_error, isOkE]
                    | ok p =>
                        simp only [h6, exbind_ok]
                        have hlk := fud_cls_lookup opt dcc ucc idx (num_convs : Int) p h6
                        have hblk := hfail dcc ucc hdc huc p.1 p.2 (some ub)
                          (outermostKwargs nc) hlk.1 hlk.2
                        cases h7 : UnetSkipConnectionBlock.init (some p.1) (some p.2)
                            none lib (some ub) true false (outermostKwargs nc) with
                        | error e => simp [h7, exmap_error, isOkE]
                        | ok model => rw [h7] at hblk; simp [isOkE] at hblk
                  cases h4 : opt.innermost with
                  | none =>
                      dsimp only
                      simp only [expure, exbind_ok]
                      by_cases hnc : 1 < num_convs
                      · simp only [if_pos hnc]
                        cases h5 : buildMiddle opt dcc ucc lib num_convs
                            (downIndices num_convs) SubArg.placeholderList with
                        | error e => simp [h5, expure, exbind_ok, exbind_error, isOkE]
                        | ok y =>
                            simp only [h5, expure, exbind_ok]
                            exact tail2 y 0
                      · simp only [if_neg hnc]
                        exact tail2 SubArg.placeholderList ((num_convs : Int) - 1)
                  | some inn =>
                      dsimp only
                      cases h8 : getField opt.up_conv "up_conv_nn" with
                      | error e => simp [h8, exbind_error, isOkE]
                      | ok ucn =>
                          simp only [h8, exbind_ok]
                          cases h9 : pyLen ucn with
                          | error e => simp [h9, exbind_error, isOkE]
                          | ok ulen =>
                              simp only [h9, exbind_ok]
                              by_cases h10 : num_convs + 1 = ulen
                              · simp only [if_pos h10, expure, exbind_ok]
                                cases h11 : fetch_arguments_from_list opt.up_conv 0 with
                                | error e => simp [h11, exbind_error, isOkE]
                                | ok au0 =>
                                    simp only [h11, exbind_ok]
                                    cases h12 : UnetSkipConnectionBlock.init
                                        (some (dictInsert au0 "up_conv_cls" (.pycls ucc)))
                                        none (some inn) lib none false true innerKwargs with
                                    | error e => simp [h12, exbind_error, isOkE]
                                    | ok b =>
                                        simp only [h12, exbind_ok, expure]
                                        by_cases hnc : 1 < num_convs
                                        · simp only [if_pos hnc]
                                          cases h5 : buildMiddle opt dcc ucc lib num_convs
                                              (downIndices num_convs) (SubArg.blk b) with
                                          | error e =>
                                              simp [h5, expure, exbind_ok, exbind_error, isOkE]
                                          | ok y =>
                                              simp only [h5, expure, exbind_ok]
                                              exact tail2 y 0
                                        · simp only [if_neg hnc]
                                          exact tail2 (SubArg.blk b) ((num_convs : Int) - 1)
                              · simp [if_neg h10, exbind_error, isOkE]

/-! ## Claim theorems -/

/-- C10: a configuration field holding a sequence of length zero is, for every
level index and accumulator state, neither an error nor indexed:
`fetch_arguments_from_list` (through its per-field step) passes it through
whole, materialized as an empty plain list, under its original,
non-singularized field name. -/
theorem c10_empty_sequence_passthrough (args : Args) (n : String) (i : Int) :
    processField args n (.listC []) i = .ok (dictInsert args n (.plainList [])) ∧
    (n ≠ "index" →
      fetch_arguments_from_list [(n, .listC [])] i =
        .ok [(n, .plainList []), ("index", .pyint i)]) := by
  constructor
  · rfl
  · intro hn
    simp [fetch_arguments_from_list, List.foldlM_cons, List.foldlM_nil,
      processField, materializeTop, exbind_ok, expure, dictInsert, hn]

/-- C10 witness at a concrete field and index. -/
theorem c10_witness :
    ("ratios" ≠ "index") ∧
    fetch_arguments_from_list [("ratios", .listC [])] 7 =
      .ok [("ratios", .plainList []), ("index", .pyint 7)] :=
  ⟨by decide, (c10_empty_sequence_passthrough [] "ratios" 7).2 (by decide)⟩

/-- C5 counterexample: the claim asserts that a sequence-valued field whose
length is less than or equal to the fetched level index makes
`fetch_arguments_from_list` fail with an out-of-range error.  The field
`"ratios"` below has length `0 ≤ 0`, yet flattening at index `0` succeeds:
the `len(...) > 0` guard routes empty sequences to the pass-through branch. -/
theorem c5_counterexample :
    ((([] : List PyVal)).length : Int) ≤ 0 ∧
    fetch_arguments_from_list [("ratios", .listC [])] 0 =
      .ok [("ratios", .plainList []), ("index", .pyint 0)] :=
  ⟨by decide, rfl⟩

/-- C5 (amended): if some field of the configuration holds a *non-empty*
sequence whose length is at most the fetched level index, then
`fetch_arguments_from_list` fails at construction time with `IndexError`; it
never substitutes a default.  (Empty sequences are exempt: the code's
`len(...) > 0` guard passes them through whole.) -/
theorem c5_amended_out_of_range_raises (opt : Args) (n : String)
    (l : List PyVal) (i : Int) (hmem : (n, PyVal.listC l) ∈ opt)
    (h0 : 0 < l.length) (hle : (l.length : Int) ≤ i) :
    fetch_arguments_from_list opt i = .error .indexError := by
  unfold fetch_arguments_from_list
  rw [foldlM_oob i n l h0 hle opt [] hmem, exbind_error]

/-- C5 witness: a one-element sequence fetched at level 3 raises. -/
theorem c5_witness :
    ("ratios", PyVal.listC [.pyint 7]) ∈ ([("ratios", PyVal.listC [.pyint 7])] : Args) ∧
    fetch_arguments_from_list [("ratios", .listC [.pyint 7])] 3 = .error .indexError :=
  ⟨List.mem_singleton.mpr rfl,
   c5_amended_out_of_range_raises [("ratios", .listC [.pyint 7])] "ratios"
     [.pyint 7] 3 (List.mem_singleton.mpr rfl) (by decide) (by decide)⟩

/-- C6: field naming and indexing in `fetch_arguments_from_list`.  A non-empty
sequence field whose name ends in `"s"` and is outside `SPECIAL_NAMES` is
emitted under the singularized name (trailing character stripped) with the
value indexed at the level position; the field `"radius"` (a member of
`SPECIAL_NAMES`) keeps its name while still being indexed; a scalar
(non-`ListConfig`) field is passed through with unchanged name and value at
every level index. -/
theorem c6_singularization (n : String) (v : PyVal) (l : List PyVal) (i : Int)
    (vi : PyVal) :
    (n.data.getLast? = some 's' → n ∉ SPECIAL_NAMES →
      String.mk n.data.dropLast ≠ "index" →
      0 < l.length → pyIndex l i = .ok vi →
      fetch_arguments_from_list [(n, .listC l)] i =
        .ok [(String.mk n.data.dropLast, materializeTop vi), ("index", .pyint i)]) ∧
    (0 < l.length → pyIndex l i = .ok vi →
      fetch_arguments_from_list [("radius", .listC l)] i =
        .ok [("radius", materializeTop vi), ("index", .pyint i)]) ∧
    (isListC v = false → n ≠ "index" →
      fetch_arguments_from_list [(n, v)] i = .ok [(n, v), ("index", .pyint i)]) := by
  refine ⟨?_, ?_, ?_⟩
  · intro hends hnot hni h0 hvi
    simp [fetch_arguments_from_list, List.foldlM_cons, List.foldlM_nil,
      processField, h0, hends, hnot, hvi, exbind_ok, expure, dictInsert, hni]
  · intro h0 hvi
    have hlast : ("radius" : String).data.getLast? = some 's' := by decide
    have hmem : ("radius" : String) ∈ SPECIAL_NAMES := by decide
    have hri : ("radius" : String) ≠ "index" := by decide
    simp [fetch_arguments_from_list, List.foldlM_cons, List.foldlM_nil,
      processField, h0, hlast, hmem, hri, hvi, exbind_ok, expure, dictInsert]
  · intro hscalar hni
    cases v with
    | listC l' => simp [isListC] at hscalar
    | pyint m =>
        simp [fetch_arguments_from_list, List.foldlM_cons, List.foldlM_nil,
          processField, exbind_ok, expure, dictInsert, hni]
    | pyrat q =>
        simp [fetch_arguments_from_list, List.foldlM_cons, List.foldlM_nil,
          processField, exbind_ok, expure, dictInsert, hni]
    | pystr s =>
        simp [fetch_arguments_from_list, List.foldlM_cons, List.foldlM_nil,
          processField, exbind_ok, expure, dictInsert, hni]
    | pybool b =>
        simp [fetch_arguments_from_list, List.foldlM_cons, List.foldlM_nil,
          processField, exbind_ok, expure, dictInsert, hni]
    | plainList l' =>
        simp [fetch_arguments_from_list, List.foldlM_cons, List.foldlM_nil,
          processField, exbind_ok, expure, dictInsert, hni]
    | pycls c =>
        simp [fetch_arguments_from_list, List.foldlM_cons, List.foldlM_nil,
          processField, exbind_ok, expure, dictInsert, hni]
    | pynone =>
        simp [fetch_arguments_from_list, List.foldlM_cons, List.foldlM_nil,
          processField, exbind_ok, expure, dictInsert, hni]

/-- C6 witness: `"ratios"` is singularized to `"ratio"` and indexed,
`"radius"` is left intact and indexed, and the scalar `"up_k"` is passed
through unchanged at level 2. -/
theorem c6_witness :
    ("ratios" : String).data.getLast? = some 's' ∧
    fetch_arguments_from_list [("ratios", .listC [.pyint 7])] 0 =
      .ok [(String.mk ("ratios" : String).data.dropLast, materializeTop (.pyint 7)),
           ("index", .pyint 0)] ∧
    fetch_arguments_from_list [("radius", .listC [.pyint 9])] 0 =
      .ok [("radius", materializeTop (.pyint 9)), ("index", .pyint 0)] ∧
    fetch_arguments_from_list [("up_k", .pyint 3)] 2 =
      .ok [("up_k", .pyint 3), ("index", .pyint 2)] :=
  ⟨by decide,
   (c6_singularization "ratios" (.pyint 3) [.pyint 7] 0 (.pyint 7)).1
     (by decide) (by decide) (by decide) (by decide) rfl,
   (c6_singularization "ratios" (.pyint 3) [.pyint 9] 0 (.pyint 9)).2.1
     (by decide) rfl,
   (c6_singularization "up_k" (.pyint 3) [] 2 .pynone).2.2 (by decide) (by decide)⟩

/-- C7: `fetch_arguments_up_and_down` flattens the `down_conv` section at the
forward index `i` and the `up_conv` section at the mirror index
`count_convs - i`, and each returned mapping carries its resolved index under
the key `"index"`. -/
theorem c7_mirror_indexing (opt : UnetOpt) (dcc ucc : Option String)
    (i cnt : Int) (au ad : Args)
    (h : fetch_arguments_up_and_down opt dcc ucc i cnt = .ok (au, ad)) :
    (∃ ad0, fetch_arguments_from_list opt.down_conv i = .ok ad0 ∧
        ad = dictInsert ad0 "down_conv_cls" (.pycls dcc)) ∧
    (∃ au0, fetch_arguments_from_list opt.up_conv (cnt - i) = .ok au0 ∧
        au = dictInsert au0 "up_conv_cls" (.pycls ucc)) ∧
    lookupArgs ad "index" = some (.pyint i) ∧
    lookupArgs au "index" = some (.pyint (cnt - i)) := by
  unfold fetch_arguments_up_and_down at h
  cases hd : fetch_arguments_from_list opt.down_conv i with
  | error e => rw [hd, exbind_error] at h; cases h
  | ok ad0 =>
      rw [hd, exbind_ok] at h
      cases hu : fetch_arguments_from_list opt.up_conv (cnt - i) with
      | error e => rw [hu, exbind_error] at h; cases h
      | ok au0 =>
          rw [hu, exbind_ok, expure] at h
          cases h
          refine ⟨⟨ad0, rfl, rfl⟩, ⟨au0, rfl, rfl⟩, ?_, ?_⟩
          · rw [lookup_dictInsert_ne _ _ _ _ (by decide)]
            exact fetch_lookup_index _ _ _ hd
          · rw [lookup_dictInsert_ne _ _ _ _ (by decide)]
            exact fetch_lookup_index _ _ _ hu

/-- C7 witness on `cfgNoGlobal` at level 0 of 1: the down mapping carries
index 0, the up mapping the mirror index `1 - 0`. -/
theorem c7_witness :
    fetch_arguments_up_and_down cfgNoGlobal (some "PointConv") (some "FPModule") 0 1 =
      .ok (fetch_up_w, fetch_down_w) ∧
    lookupArgs fetch_down_w "index" = some (.pyint 0) ∧
    lookupArgs fetch_up_w "index" = some (.pyint (1 - 0)) :=
  ⟨rfl,
   (c7_mirror_indexing cfgNoGlobal (some "PointConv") (some "FPModule") 0 1
      fetch_up_w fetch_down_w rfl).2.2.1,
   (c7_mirror_indexing cfgNoGlobal (some "PointConv") (some "FPModule") 0 1
      fetch_up_w fetch_down_w rfl).2.2.2⟩

/-- C2: for a configuration with an `innermost` section (and the fields the
builder touches before the assert present and well typed), violating
`len(down_conv.down_conv_nn) + 1 == len(up_conv.up_conv_nn)` makes
`UnetBasedModel.__init__` fail with a failed assertion — no model is
produced. -/
theorem c2_global_level_count_assertion (opt : UnetOpt) (nc : Int)
    (lib : List String) (inn : Args) (ld lu : List PyVal) (ds us : String)
    (hin : opt.innermost = some inn)
    (hd : getField opt.down_conv "down_conv_nn" = .ok (.listC ld))
    (hdm : getField opt.down_conv "module_name" = .ok (.pystr ds))
    (hum : getField opt.up_conv "module_name" = .ok (.pystr us))
    (hu : getField opt.up_conv "up_conv_nn" = .ok (.listC lu))
    (hne : ld.length + 1 ≠ lu.length) :
    UnetBasedModel.init opt nc lib = .error .assertionError := by
  simp [UnetBasedModel.init, resolveCls, hd, hdm, hum, hin, hu, pyLen,
    exbind_ok, exbind_error, expure, hne, isOkE]

/-- C2 witness: a concrete mismatched configuration (one down level, one up
level) fails the assertion. -/
theorem c2_witness :
    cfgMismatch.innermost =
      some [("module_name", .pystr "GlobalBaseModule"), ("nn", .listC [.pyint 19, .pyint 32])] ∧
    UnetBasedModel.init cfgMismatch 5 libStd = .error .assertionError :=
  ⟨rfl,
   c2_global_level_count_assertion cfgMismatch 5 libStd
     [("module_name", .pystr "GlobalBaseModule"), ("nn", .listC [.pyint 19, .pyint 32])]
     [.listC [.pyint 3, .pyint 16]] [.listC [.pyint 16, .pyint 3]]
     "PointConv" "FPModule" rfl rfl rfl rfl rfl (by decide)⟩

/-- C1 (the code contradicts the claim): on a well-formed configuration
*without* an `innermost` section, the builder starts from the plain-list
placeholder `unet_block = []` and hands it to `nn.Sequential` inside the
first `UnetSkipConnectionBlock` it builds; `add_module` rejects the list, so
construction raises `TypeError` instead of producing the claimed L nested
blocks with `num_classes` injected into the outermost block. -/
theorem c1_no_innermost_placeholder_raises :
    UnetBasedModel.init cfgNoGlobal 5 libStd = .error .typeErrorNotAModule := rfl

/-- C4 counterexample: `cfgBadDown` has the unknown down-conv module name
`"Nope"`, yet construction does *not* fail at the registry lookup (which
defaults to `None`); it fails later, when the `None` left in
`down_conv_cls` is called to instantiate the down module, with a
`TypeError`, not an `AttributeError` registry-lookup error. -/
theorem c4_counterexample :
    UnetBasedModel.init cfgBadDown 5 libStd = .error .typeErrorNoneNotCallable ∧
    UnetBasedModel.init cfgBadDown 5 libStd ≠ .error (.attributeError "Nope") := by
  constructor
  · rfl
  · intro hcontra
    have h1 : UnetBasedModel.init cfgBadDown 5 libStd =
        .error .typeErrorNoneNotCallable := rfl
    rw [h1] at hcontra
    simp at hcontra

/-- C4 (amended): an unknown `down_conv.module_name` or `up_conv.module_name`
still makes every construction fail before a model is produced, but the
failure is deferred: the registry lookup `getattr(modules_lib, name, None)`
itself succeeds with the default `None`, and the `TypeError` surfaces when
that `None` is called to instantiate the down- (resp. up-) convolution of a
block. -/
theorem c4_amended_unknown_name_never_builds (opt : UnetOpt) (nc : Int)
    (lib : List String)
    (h : resolveCls lib opt.down_conv = .ok none ∨
         resolveCls lib opt.up_conv = .ok none) :
    isOkE (UnetBasedModel.init opt nc lib) = false := by
  apply init_never_ok_outermost
  intro dcc ucc hdc huc au ad sub kw hlkd hlku
  rcases h with h | h
  · rw [h] at hdc
    cases hdc
    exact uscb_none_down_cls_fails au ad sub lib kw hlkd
  · rw [h] at huc
    cases huc
    exact uscb_none_up_cls_fails au ad sub lib kw hlku

/-- C4 witness for the amended claim, discharging both disjuncts: on
`cfgBadDown` the down lookup resolves to `None`, on `cfgBadUp` the up lookup
does, and neither construction returns a model. -/
theorem c4_witness :
    resolveCls libStd cfgBadDown.down_conv = .ok none ∧
    isOkE (UnetBasedModel.init cfgBadDown 5 libStd) = false ∧
    resolveCls libStd cfgBadUp.up_conv = .ok none ∧
    isOkE (UnetBasedModel.init cfgBadUp 5 libStd) = false :=
  ⟨rfl,
   c4_amended_unknown_name_never_builds cfgBadDown 5 libStd (Or.inl rfl),
   rfl,
   c4_amended_unknown_name_never_builds cfgBadUp 5 libStd (Or.inr rfl)⟩

/-- C3: `UnetSkipConnectionBlock.forward` always applies the up module to the
tuple (processed-result elements, original-input elements).  In the innermost
state the processed result is the inner module's output; in the intermediate
and outermost states it is the nested submodule's output on the
down-sampled input.  When the modules produce 3-tuples, the up module
therefore receives exactly the 6-tuple
`(x, pos, batch, x_skip, pos_skip, batch_skip)` an `FPModule` unpacks, with
the skip slots holding the original (pre-down) input. -/
theorem c3_skip_concat_order
    (inner down up : List TVal → Except PyErr (List TVal)) (sub : RBlock)
    (data data_out d : List TVal) :
    ((inner data = .ok data_out →
        (RBlock.innerB inner up).forward data = up (data_out ++ data)) ∧
     (down data = .ok d → sub.forward d = .ok data_out →
        (RBlock.midB down up sub).forward data = up (data_out ++ data))) ∧
    ((∀ a b c x p q, data = [x, p, q] → inner data = .ok [a, b, c] →
        (RBlock.innerB inner up).forward data = up [a, b, c, x, p, q]) ∧
     (∀ a b c x p q, data = [x, p, q] → down data = .ok d →
        sub.forward d = .ok [a, b, c] →
        (RBlock.midB down up sub).forward data = up [a, b, c, x, p, q])) := by
  refine ⟨⟨?_, ?_⟩, ?_, ?_⟩
  · intro hi
    simp [RBlock.forward, hi, exbind_ok]
  · intro hd hs
    simp [RBlock.forward, hd, hs, exbind_ok]
  · intro a b c x p q hdata hi
    subst hdata
    simp [RBlock.forward, hi, exbind_ok]
  · intro a b c x p q hdata hd hs
    subst hdata
    simp [RBlock.forward, hd, hs, exbind_ok]

/-- C3 witness: concrete innermost and intermediate blocks with identity up
modules show the (processed, original) tuple order. -/
theorem c3_witness :
    (RBlock.innerB innerF idF).forward dataF =
      .ok [.mat [[5]], .mat [[6]], .vec [0], .mat [[1]], .mat [[2]], .vec [3]] ∧
    (RBlock.midB downF idF subF).forward dataF =
      .ok [.mat [[7]], .mat [[8]], .vec [1], .mat [[1]], .mat [[2]], .vec [3]] :=
  ⟨(c3_skip_concat_order innerF downF idF subF dataF
      [.mat [[5]], .mat [[6]], .vec [0]] []).2.1
      (.mat [[5]]) (.mat [[6]]) (.vec [0]) (.mat [[1]]) (.mat [[2]]) (.vec [3])
      rfl rfl,
   (c3_skip_concat_order innerF downF idF subF dataF
      [.mat [[7]], .mat [[8]], .vec [1]] [.mat [[7]], .mat [[8]], .vec [1]]).2.2
      (.mat [[7]]) (.mat [[8]]) (.vec [1]) (.mat [[1]]) (.mat [[2]]) (.vec [3])
      rfl rfl rfl⟩

/-- C8: `FPModule.forward` on `(x, pos, batch, x_skip, pos_skip, batch_skip)`.
With `x_skip = None` it applies the MLP directly to the interpolated features
(no concatenation), so the output rows all have the MLP's final-layer width;
with `x_skip` present the tensor handed to the MLP is the channel-wise
concatenation, whose rows have width interpolated-width + skip-width.  In
both cases the returned triple is (new features, pos\_skip, batch\_skip). -/
theorem c8_fp_forward (fp : FPModule) (ki : KnnInterpolate) (x pos ps s : Mat)
    (batch bs : List Nat) :
    (FPModule.forward fp ki
        [.mat x, .mat pos, .vec batch, .null, .mat ps, .vec bs] =
      .ok [.mat (fp.nn (ki x pos ps batch bs fp.up_k)), .mat ps, .vec bs]) ∧
    (MLPFinalWidth fp.up_conv_nn fp.nn →
      uniformWidth (fp.nn (ki x pos ps batch bs fp.up_k))
        (fp.up_conv_nn.getLastD 0)) ∧
    ((ki x pos ps batch bs fp.up_k).length = s.length →
      FPModule.forward fp ki
          [.mat x, .mat pos, .vec batch, .mat s, .mat ps, .vec bs] =
        .ok [.mat (fp.nn (List.zipWith (· ++ ·) (ki x pos ps batch bs fp.up_k) s)),
             .mat ps, .vec bs]) ∧
    (∀ wi ws, uniformWidth (ki x pos ps batch bs fp.up_k) wi → uniformWidth s ws →
      uniformWidth (List.zipWith (· ++ ·) (ki x pos ps batch bs fp.up_k) s)
        (wi + ws)) := by
  refine ⟨?_, ?_, ?_, ?_⟩
  · simp [FPModule.forward, asMat, asVec, exbind_ok, expure]
  · intro hmlp
    exact hmlp (ki x pos ps batch bs fp.up_k)
  · intro hlen
    simp [FPModule.forward, asMat, asVec, torchCat1, hlen, exbind_ok, expure]
  · intro wi ws hwi hws
    exact zipWith_append_width wi ws _ s hwi hws

/-- C8 witness on concrete tensors: two coarse points interpolated onto one
skip position, once without and once with a one-channel skip tensor. -/
theorem c8_witness :
    FPModule.forward fpW kiW
        [.mat [[1], [2]], .mat [[0, 0, 0], [1, 1, 1]], .vec [0, 0], .null,
         .mat [[2, 2, 2]], .vec [0]] =
      .ok [.mat [[0, 0, 0, 0]], .mat [[2, 2, 2]], .vec [0]] ∧
    uniformWidth (fpW.nn (kiW [[1], [2]] [[0, 0, 0], [1, 1, 1]] [[2, 2, 2]]
        [0, 0] [0] fpW.up_k)) 4 ∧
    FPModule.forward fpW kiW
        [.mat [[1], [2]], .mat [[0, 0, 0], [1, 1, 1]], .vec [0, 0], .mat [[9]],
         .mat [[2, 2, 2]], .vec [0]] =
      .ok [.mat [[0, 0, 0, 0]], .mat [[2, 2, 2]], .vec [0]] :=
  ⟨(c8_fp_forward fpW kiW [[1], [2]] [[0, 0, 0], [1, 1, 1]] [[2, 2, 2]] [[9]]
      [0, 0] [0]).1,
   (c8_fp_forward fpW kiW [[1], [2]] [[0, 0, 0], [1, 1, 1]] [[2, 2, 2]] [[9]]
      [0, 0] [0]).2.1 (fun m r hr => by
        simp only [fpW] at hr
        rcases List.mem_map.mp hr with ⟨u, _, hu⟩
        simp [← hu, fpW]),
   (c8_fp_forward fpW kiW [[1], [2]] [[0, 0, 0], [1, 1, 1]] [[2, 2, 2]] [[9]]
      [0, 0] [0]).2.2.1 (by decide)⟩

/-- C9: `GlobalBaseModule.forward` concatenates features with raw positions
channel-wise, applies the MLP, pools per batch index with max or mean as
configured by `aggr`, and returns positions that are identically zero (one
3-entry origin row per pooled cloud) together with the contiguous batch range
`0 .. batch_size - 1`, where `batch_size` is the number of pooled rows. -/
theorem c9_global_forward (g : GlobalBaseModule) (x pos : Mat)
    (batch : List Nat) (pooled : Mat)
    (hlen : x.length = pos.length)
    (hp : pooled = g.pool (g.nn (List.zipWith (· ++ ·) x pos)) batch) :
    GlobalBaseModule.forward g [.mat x, .mat pos, .vec batch] =
      .ok [.mat pooled, .mat (zerosMat pooled.length 3),
           .vec (List.range pooled.length)] ∧
    (zerosMat pooled.length 3).length = pooled.length ∧
    (∀ r ∈ zerosMat pooled.length 3, r.length = 3 ∧ ∀ q ∈ r, q = 0) ∧
    (∀ j, j ∈ List.range pooled.length ↔ j < pooled.length) ∧
    (g.aggr = "max" → g.pool = global_max_pool) ∧
    (g.aggr ≠ "max" → g.pool = global_mean_pool) := by
  subst hp
  refine ⟨?_, ?_, ?_, ?_, ?_, ?_⟩
  · simp [GlobalBaseModule.forward, asMat, asVec, torchCat1, hlen,
      exbind_ok, expure]
  · simp [zerosMat]
  · intro r hr
    have hr' : r ∈ List.replicate
        (g.pool (g.nn (List.zipWith (· ++ ·) x pos)) batch).length
        (List.replicate 3 (0 : ℚ)) := hr
    rw [List.eq_of_mem_replicate hr']
    exact ⟨by simp, fun q hq => List.eq_of_mem_replicate hq⟩
  · intro j
    exact List.mem_range
  · intro ha
    simp [GlobalBaseModule.pool, ha]
  · intro ha
    simp [GlobalBaseModule.pool, ha]

/-- C9 witness: identity MLP, max pooling, two one-point clouds — the output
positions are two origin rows and the batch indices are `[0, 1]`. -/
theorem c9_witness :
    x0g.length = pos0g.length ∧
    GlobalBaseModule.forward g0 [.mat x0g, .mat pos0g, .vec batch0g] =
      .ok [.mat pooled0g, .mat (zerosMat pooled0g.length 3),
           .vec (List.range pooled0g.length)] :=
  ⟨rfl,
   (c9_global_forward g0 x0g pos0g batch0g pooled0g rfl (by decide)).1⟩

end TP3D
